import Mathlib

/-!
Verification of the TLS record-layer codec
(`vespalib/net/tls/impl/openssl_crypto_codec_impl.cpp`).

The codec's control flow (handshake / encode / decode) is embedded
faithfully from the source.  The underlying OpenSSL engine
(`SSL_do_handshake`, `SSL_write`, `SSL_read`, together with the
`BIO_pending` observations on the two direct-buffer BIOs) is opaque to
the codec, so it is modelled as an arbitrary transition structure
(`Engine`) over an abstract `SslState`; theorems quantify over all
engines unless a claim needs a concrete one.  A `LOG_ASSERT` failure is
an abort-class contract failure, modelled as the `none` result of the
embedded operation.
-/

namespace VespaTls

/-- OpenSSL error code `SSL_ERROR_NONE` (from `openssl/ssl.h`). -/
def SSL_ERROR_NONE : Nat := 0

/-- OpenSSL error code `SSL_ERROR_SSL`. -/
def SSL_ERROR_SSL : Nat := 1

/-- OpenSSL error code `SSL_ERROR_WANT_READ`. -/
def SSL_ERROR_WANT_READ : Nat := 2

/-- OpenSSL error code `SSL_ERROR_WANT_WRITE`. -/
def SSL_ERROR_WANT_WRITE : Nat := 3

/-- OpenSSL error code `SSL_ERROR_SYSCALL`. -/
def SSL_ERROR_SYSCALL : Nat := 5

/-- `INT32_MAX` from `<cstdint>`: `2^31 - 1`. -/
def INT32_MAX : Nat := 2147483647

/-- `verify_buf(buf, len)` from the source: the length must be strictly
below `INT32_MAX` and, when the length is nonzero, the pointer must be
non-null.  The pointer is modelled by its only observed property,
non-nullness. -/
def verify_buf (buf_nonnull : Bool) (len : Nat) : Bool :=
  decide (len < INT32_MAX) && (decide (len = 0) || buf_nonnull)

/-- `HandshakeResult::State`. -/
inductive HandshakeState where
  | NeedsMorePeerData
  | Done
  | Failed
deriving DecidableEq, Repr

/-- `HandshakeResult`: bytes drained from the peer-input region, bytes
written to the peer-output region, and the outcome tag. -/
structure HandshakeResult where
  bytes_consumed : Nat
  bytes_produced : Nat
  state : HandshakeState
deriving DecidableEq, Repr

/-- `HandshakeResult::failed()`. -/
def HandshakeResult.failed (r : HandshakeResult) : Bool :=
  r.state == HandshakeState.Failed

/-- `EncodeResult`: consumed plaintext bytes, produced ciphertext bytes,
and the failure flag. -/
structure EncodeResult where
  bytes_consumed : Nat
  bytes_produced : Nat
  failed : Bool
deriving DecidableEq, Repr

/-- `DecodeResult::State`. -/
inductive DecodeState where
  | OK
  | NeedsMorePeerData
  | Failed
deriving DecidableEq, Repr

/-- `DecodeResult`: consumed ciphertext bytes, produced plaintext bytes,
and the outcome tag. -/
structure DecodeResult where
  bytes_consumed : Nat
  bytes_produced : Nat
  state : DecodeState
deriving DecidableEq, Repr

/-- `handshake_consumed_bytes_and_needs_more_peer_data(consumed)`. -/
def handshake_consumed_bytes_and_needs_more_peer_data (consumed : Nat) : HandshakeResult :=
  ⟨consumed, 0, HandshakeState.NeedsMorePeerData⟩

/-- `handshake_consumed_bytes_and_is_complete(consumed)`. -/
def handshake_consumed_bytes_and_is_complete (consumed : Nat) : HandshakeResult :=
  ⟨consumed, 0, HandshakeState.Done⟩

/-- `handshaked_bytes(consumed, produced, state)`. -/
def handshaked_bytes (consumed produced : Nat) (state : HandshakeState) : HandshakeResult :=
  ⟨consumed, produced, state⟩

/-- `handshake_completed()`. -/
def handshake_completed : HandshakeResult :=
  ⟨0, 0, HandshakeState.Done⟩

/-- `handshake_failed()`. -/
def handshake_failed : HandshakeResult :=
  ⟨0, 0, HandshakeState.Failed⟩

/-- `encode_failed()`. -/
def encode_failed : EncodeResult :=
  ⟨0, 0, true⟩

/-- `encoded_bytes(consumed, produced)`. -/
def encoded_bytes (consumed produced : Nat) : EncodeResult :=
  ⟨consumed, produced, false⟩

/-- `decode_failed()`. -/
def decode_failed : DecodeResult :=
  ⟨0, 0, DecodeState.Failed⟩

/-- `decoded_frames_with_plaintext_bytes(produced_bytes)`. -/
def decoded_frames_with_plaintext_bytes (produced_bytes : Nat) : DecodeResult :=
  ⟨0, produced_bytes, DecodeState.OK⟩

/-- `decode_needs_more_peer_data()`. -/
def decode_needs_more_peer_data : DecodeResult :=
  ⟨0, 0, DecodeState.NeedsMorePeerData⟩

/-- `decoded_bytes(consumed, produced, state)`. -/
def decoded_bytes (consumed produced : Nat) (state : DecodeState) : DecodeResult :=
  ⟨consumed, produced, state⟩

/-- Modelled from the spec: `MaximumFramePlaintextSize` is declared in
`openssl_crypto_codec_impl.h`, which is not part of the sampled sources;
the spec fixes it as "maximum plaintext bytes consumed by one internal
engine write during encode (a fixed frame ceiling, e.g. on the order of
16 KiB, matching standard TLS record plaintext limits)", i.e. the
standard TLS record plaintext limit of 16384 bytes.  No theorem below
depends on its numeric value. -/
def MaximumFramePlaintextSize : Nat := 16384

/-- The codec-observable part of the OpenSSL engine state: whether
`SSL_is_init_finished` holds, `BIO_pending(_input_bio)` (unconsumed
ciphertext bytes in the attached input view) and
`BIO_pending(_output_bio)` (ciphertext bytes the engine has queued in
the attached output view). -/
structure SslState where
  init_finished : Bool
  input_pending : Nat
  output_pending : Nat
deriving DecidableEq, Repr

/-- The opaque cryptographic engine.  `do_handshake` models
`SSL_do_handshake` followed by `SSL_get_error`, returning the new state
and the error code; `ssl_write` models `SSL_write` of a span of the
given length, returning the new state and the `int` return value;
`ssl_read` models `SSL_read` into a buffer of the given capacity,
returning the new state, the `int` return value, and the error code
`SSL_get_error` would report for it.  The engine is arbitrary: theorems
hold for every behaviour unless they fix a concrete one. -/
structure Engine where
  do_handshake : SslState → SslState × Nat
  ssl_write : SslState → Nat → SslState × Int
  ssl_read : SslState → Nat → SslState × Int × Nat

/-- `OpenSslCryptoCodecImpl::do_handshake_and_consume_peer_input_bytes`.
Records `BIO_pending(_input_bio)` before and after `SSL_do_handshake`;
the delta is the consumed byte count, asserted non-negative
(`LOG_ASSERT(consumed >= 0)` — an increase aborts, modelled as `none`).
`SSL_ERROR_WANT_READ` means more peer data is needed; `SSL_ERROR_NONE`
with the handshake not internally finished is a fatal protocol-invariant
violation; any other code is a fatal error. -/
def do_handshake_and_consume_peer_input_bytes (e : Engine) (s : SslState) :
    Option (SslState × HandshakeResult) :=
  let pending_read_before := s.input_pending
  let hs := e.do_handshake s
  let s2 := hs.1
  let ssl_result := hs.2
  if pending_read_before < s2.input_pending then
    none
  else
    let consumed := pending_read_before - s2.input_pending
    if ssl_result = SSL_ERROR_WANT_READ then
      some (s2, handshake_consumed_bytes_and_needs_more_peer_data consumed)
    else if ssl_result = SSL_ERROR_NONE then
      if s2.init_finished = false then
        some (s2, handshake_failed)
      else
        some (s2, handshake_consumed_bytes_and_is_complete consumed)
    else
      some (s2, handshake_failed)

/-- `OpenSslCryptoCodecImpl::handshake(from_peer, from_peer_buf_size,
to_peer, to_peer_buf_size)`.  Entry assertion on both buffers; immediate
`handshake_completed()` when `SSL_is_init_finished`; otherwise the two
buffer views are attached (input pending becomes the peer-input length,
output pending zero), the handshake is advanced, the intermediate result
is asserted to carry no produced bytes, a failure is returned as-is, and
otherwise the pending output-BIO byte count is reported as produced. -/
def handshake (e : Engine) (init_finished : Bool)
    (from_peer_nonnull : Bool) (from_peer_buf_size : Nat)
    (to_peer_nonnull : Bool) (to_peer_buf_size : Nat) : Option HandshakeResult :=
  if !(verify_buf from_peer_nonnull from_peer_buf_size
        && verify_buf to_peer_nonnull to_peer_buf_size) then
    none
  else if init_finished then
    some handshake_completed
  else
    match do_handshake_and_consume_peer_input_bytes e ⟨false, from_peer_buf_size, 0⟩ with
    | none => none
    | some (s2, consume_res) =>
      if consume_res.bytes_produced ≠ 0 then
        none
      else if consume_res.failed then
        some consume_res
      else
        let produced := s2.output_pending
        some (handshaked_bytes consume_res.bytes_consumed produced consume_res.state)

/-- `OpenSslCryptoCodecImpl::encode(plaintext, plaintext_size,
ciphertext, ciphertext_size)`.  Entry assertion on both buffers; `Failed`
with zero counts before handshake completion; otherwise only the output
view is attached and, for nonempty plaintext, a single `SSL_write` of
`min(plaintext_size, MaximumFramePlaintextSize)` bytes is issued whose
return value must equal exactly that span; produced bytes are the
pending output-BIO count after the write. -/
def encode (e : Engine) (init_finished : Bool)
    (plaintext_nonnull : Bool) (plaintext_size : Nat)
    (ciphertext_nonnull : Bool) (ciphertext_size : Nat) : Option EncodeResult :=
  if !(verify_buf plaintext_nonnull plaintext_size
        && verify_buf ciphertext_nonnull ciphertext_size) then
    none
  else if !init_finished then
    some encode_failed
  else
    if plaintext_size ≠ 0 then
      let to_consume : Nat := min plaintext_size MaximumFramePlaintextSize
      let wr := e.ssl_write ⟨true, 0, 0⟩ to_consume
      let s2 := wr.1
      let consumed : Int := wr.2
      if consumed < 0 then
        some encode_failed
      else if consumed ≠ (to_consume : Int) then
        some encode_failed
      else
        some (encoded_bytes consumed.toNat s2.output_pending)
    else
      some (encoded_bytes 0 0)

/-- `OpenSslCryptoCodecImpl::drain_and_produce_plaintext_from_ssl`.
One `SSL_read`: a positive return is a decoded plaintext length;
otherwise `SSL_ERROR_WANT_READ` asks for more ciphertext and anything
else is fatal. -/
def drain_and_produce_plaintext_from_ssl (e : Engine) (s : SslState)
    (plaintext_size : Nat) : SslState × DecodeResult :=
  let rd := e.ssl_read s plaintext_size
  let s2 := rd.1
  let produced : Int := rd.2.1
  let ssl_error : Nat := rd.2.2
  if 0 < produced then
    (s2, decoded_frames_with_plaintext_bytes produced.toNat)
  else if ssl_error = SSL_ERROR_WANT_READ then
    (s2, decode_needs_more_peer_data)
  else
    (s2, decode_failed)

/-- `OpenSslCryptoCodecImpl::decode(ciphertext, ciphertext_size,
plaintext, plaintext_size)`.  Entry assertion on both buffers; `Failed`
with zero counts before handshake completion; otherwise the input view
is attached (input pending becomes the ciphertext length), the pending
input count is recorded before and after the drain, asserted
non-increasing (`LOG_ASSERT`, modelled as `none` on violation), and the
delta is reported as consumed alongside the drain outcome. -/
def decode (e : Engine) (init_finished : Bool)
    (ciphertext_nonnull : Bool) (ciphertext_size : Nat)
    (plaintext_nonnull : Bool) (plaintext_size : Nat) : Option DecodeResult :=
  if !(verify_buf ciphertext_nonnull ciphertext_size
        && verify_buf plaintext_nonnull plaintext_size) then
    none
  else if !init_finished then
    some decode_failed
  else
    let s0 : SslState := ⟨true, ciphertext_size, 0⟩
    let input_pending_before := s0.input_pending
    let dr := drain_and_produce_plaintext_from_ssl e s0 plaintext_size
    let s2 := dr.1
    let produce_res := dr.2
    let input_pending_after := s2.input_pending
    if input_pending_before < input_pending_after then
      none
    else
      some (decoded_bytes (input_pending_before - input_pending_after)
              produce_res.bytes_produced produce_res.state)

/-! Concrete engine behaviours used to instantiate the universally
quantified theorems and to exhibit counterexamples. -/

/-- An engine whose handshake advance queues 5 outgoing ciphertext bytes
in the output BIO, consumes nothing, and then reports
`SSL_ERROR_WANT_READ` (it wants more peer data) — the normal behaviour
of a client's very first `SSL_do_handshake`, which writes a ClientHello
and then waits. -/
def c1Engine : Engine where
  do_handshake := fun s => (⟨false, s.input_pending, 5⟩, SSL_ERROR_WANT_READ)
  ssl_write := fun s _ => (s, -1)
  ssl_read := fun s _ => (s, -1, SSL_ERROR_SSL)

/-- An engine that does nothing: the handshake advance consumes and
produces nothing and wants more data, writes are rejected, reads want
more data. -/
def stallEngine : Engine where
  do_handshake := fun s => (s, SSL_ERROR_WANT_READ)
  ssl_write := fun s _ => (s, -1)
  ssl_read := fun s _ => (s, -1, SSL_ERROR_WANT_READ)

/-- C1 counterexample: with the engine behaviour of a first client
handshake step (`c1Engine`: queues 5 output bytes, reports
`SSL_ERROR_WANT_READ`), `handshake()` returns outcome
`NeedsMorePeerData` with `bytes_produced = 5 ≠ 0`: the returned
`bytes_produced` is `BIO_pending(_output_bio)`, not 0, so a
want-more-data outcome IS paired with emitted output bytes.  The
`LOG_ASSERT(consume_res.bytes_produced == 0)` only constrains the
intermediate result of `do_handshake_and_consume_peer_input_bytes`. -/
theorem c1_counterexample :
    handshake c1Engine false true 0 true 100 =
      some ⟨0, 5, HandshakeState.NeedsMorePeerData⟩ ∧
    ¬ (∀ r : HandshakeResult,
        handshake c1Engine false true 0 true 100 = some r →
        r.state = HandshakeState.NeedsMorePeerData → r.bytes_produced = 0) := by
  refine ⟨by decide, fun h => ?_⟩
  have h5 := h ⟨0, 5, HandshakeState.NeedsMorePeerData⟩ (by decide) rfl
  exact absurd h5 (by decide)

/-- C1 (amended): when the engine's handshake-advance primitive reports
`SSL_ERROR_WANT_READ` (needs more peer input) and respects the
non-increasing input-queue invariant, the intermediate advance result
carries `bytes_produced = 0` (this is what the source asserts), and
`handshake()` returns outcome `NeedsMorePeerData` whose
`bytes_consumed` is the input-queue delta and whose `bytes_produced`
equals the ciphertext bytes the engine left pending in the output view —
which may be nonzero. -/
theorem c1_want_read_reports_pending_output
    (e : Engine) (bn cn : Bool) (n m : Nat) (s2 : SslState)
    (h1 : verify_buf bn n = true) (h2 : verify_buf cn m = true)
    (hhs : e.do_handshake ⟨false, n, 0⟩ = (s2, SSL_ERROR_WANT_READ))
    (hmono : s2.input_pending ≤ n) :
    do_handshake_and_consume_peer_input_bytes e ⟨false, n, 0⟩ =
      some (s2, ⟨n - s2.input_pending, 0, HandshakeState.NeedsMorePeerData⟩) ∧
    handshake e false bn n cn m =
      some ⟨n - s2.input_pending, s2.output_pending,
            HandshakeState.NeedsMorePeerData⟩ := by
  have hnl : ¬ (n < s2.input_pending) := Nat.not_lt.mpr hmono
  have hcons : do_handshake_and_consume_peer_input_bytes e ⟨false, n, 0⟩ =
      some (s2, ⟨n - s2.input_pending, 0, HandshakeState.NeedsMorePeerData⟩) := by
    simp [do_handshake_and_consume_peer_input_bytes, hhs, hnl,
      handshake_consumed_bytes_and_needs_more_peer_data]
  refine ⟨hcons, ?_⟩
  simp [handshake, h1, h2, hcons, HandshakeResult.failed, handshaked_bytes]

/-- C1 witness: the amended theorem instantiated with `c1Engine` on an
empty peer-input region and a 100-byte output region. -/
theorem c1_witness :
    verify_buf true 0 = true ∧ verify_buf true 100 = true ∧
    c1Engine.do_handshake ⟨false, 0, 0⟩ = (⟨false, 0, 5⟩, SSL_ERROR_WANT_READ) ∧
    (⟨false, 0, 5⟩ : SslState).input_pending ≤ 0 ∧
    handshake c1Engine false true 0 true 100 =
      some ⟨0 - (⟨false, 0, 5⟩ : SslState).input_pending,
            (⟨false, 0, 5⟩ : SslState).output_pending,
            HandshakeState.NeedsMorePeerData⟩ :=
  ⟨by decide, by decide, rfl, by decide,
    (c1_want_read_reports_pending_output c1Engine true true 0 100 ⟨false, 0, 5⟩
      (by decide) (by decide) rfl (by decide)).2⟩

/-- C2 (confirmed): while the handshake is not complete, `encode()` and
`decode()` (on buffers passing the entry assertion) return `Failed` with
`bytes_consumed = 0` and `bytes_produced = 0`, and the result is
identical for every engine behaviour — the engine's write/read
primitives are never invoked and nothing the engine could do (and it is
the only writer of the caller buffers) influences the outcome. -/
theorem c2_no_premature_crypto
    (e e2 : Engine) (bn cn : Bool) (n m : Nat)
    (h1 : verify_buf bn n = true) (h2 : verify_buf cn m = true) :
    encode e false bn n cn m = some ⟨0, 0, true⟩ ∧
    decode e false bn n cn m = some ⟨0, 0, DecodeState.Failed⟩ ∧
    encode e false bn n cn m = encode e2 false bn n cn m ∧
    decode e false bn n cn m = decode e2 false bn n cn m := by
  refine ⟨?_, ?_, ?_, ?_⟩ <;>
    simp [encode, decode, h1, h2, encode_failed, decode_failed]

/-- C2 witness: `c2_no_premature_crypto` at two concretely different
engines and 10-byte buffers. -/
theorem c2_witness :
    verify_buf true 10 = true ∧
    encode c1Engine false true 10 true 10 = some ⟨0, 0, true⟩ ∧
    decode c1Engine false true 10 true 10 = some ⟨0, 0, DecodeState.Failed⟩ ∧
    encode c1Engine false true 10 true 10 = encode stallEngine false true 10 true 10 ∧
    decode c1Engine false true 10 true 10 = decode stallEngine false true 10 true 10 := by
  have h := c2_no_premature_crypto c1Engine stallEngine true true 10 10
    (by decide) (by decide)
  exact ⟨by decide, h.1, h.2.1, h.2.2.1, h.2.2.2⟩

/-- C3 (confirmed): once `SSL_is_init_finished` holds, `handshake()`
returns `{0, 0, Done}` immediately (the `handshake_completed()` result),
and the result is identical for every engine behaviour — no buffer view
is attached and the engine is never invoked, so repeated calls are an
idempotent no-op. -/
theorem c3_handshake_idempotent_after_done
    (e e2 : Engine) (bn cn : Bool) (n m : Nat)
    (h1 : verify_buf bn n = true) (h2 : verify_buf cn m = true) :
    handshake e true bn n cn m = some ⟨0, 0, HandshakeState.Done⟩ ∧
    handshake e true bn n cn m = handshake e2 true bn n cn m := by
  refine ⟨?_, ?_⟩ <;> simp [handshake, h1, h2, handshake_completed]

/-- C3 witness: `c3_handshake_idempotent_after_done` at two concretely
different engines and 10-byte buffers. -/
theorem c3_witness :
    verify_buf true 10 = true ∧
    handshake c1Engine true true 10 true 10 = some ⟨0, 0, HandshakeState.Done⟩ ∧
    handshake c1Engine true true 10 true 10 = handshake stallEngine true true 10 true 10 := by
  have h := c3_handshake_idempotent_after_done c1Engine stallEngine true true 10 10
    (by decide) (by decide)
  exact ⟨by decide, h.1, h.2⟩

/-- An engine whose `SSL_write` accepts exactly the requested span and
leaves `span + 29` ciphertext bytes pending in the output BIO (record
header/MAC overhead). -/
def fullWriteEngine : Engine where
  do_handshake := fun s => (s, SSL_ERROR_WANT_READ)
  ssl_write := fun _ k => (⟨true, 0, k + 29⟩, (k : Int))
  ssl_read := fun s _ => (s, -1, SSL_ERROR_WANT_READ)

/-- An engine whose `SSL_write` returns success but accepts one byte
fewer than the requested span. -/
def shortWriteEngine : Engine where
  do_handshake := fun s => (s, SSL_ERROR_WANT_READ)
  ssl_write := fun _ k => (⟨true, 0, k⟩, (k : Int) - 1)
  ssl_read := fun s _ => (s, -1, SSL_ERROR_WANT_READ)

/-- C4 (confirmed): with the handshake complete and a nonempty
plaintext, `encode()` issues exactly one engine write whose span is
`min(plaintext_size, MaximumFramePlaintextSize)` (the result is fully
determined by the engine's `ssl_write` at precisely that argument): when
the engine's return value is anything below that clamped span (partial
accept or error) the whole operation returns `Failed`, and when it
accepts the full span, `bytes_consumed` equals the clamped span and
`bytes_produced` the pending output-BIO bytes after the write. -/
theorem c4_encode_clamps_and_requires_full_write
    (e : Engine) (bn cn : Bool) (n m : Nat) (s2 : SslState) (ret : Int)
    (h1 : verify_buf bn n = true) (h2 : verify_buf cn m = true)
    (hn : n ≠ 0)
    (hw : e.ssl_write ⟨true, 0, 0⟩ (min n MaximumFramePlaintextSize) = (s2, ret)) :
    (ret < ((min n MaximumFramePlaintextSize : Nat) : Int) →
      encode e true bn n cn m = some ⟨0, 0, true⟩) ∧
    (ret = ((min n MaximumFramePlaintextSize : Nat) : Int) →
      encode e true bn n cn m =
        some ⟨min n MaximumFramePlaintextSize, s2.output_pending, false⟩) := by
  constructor
  · intro hlt
    rcases lt_or_le ret 0 with hneg | hge
    · simp [encode, h1, h2, hn, hw, hneg, encode_failed, -Nat.cast_min]
    · have hne : ret ≠ ((min n MaximumFramePlaintextSize : Nat) : Int) := ne_of_lt hlt
      simp [encode, h1, h2, hn, hw, Int.not_lt.mpr hge, hne, encode_failed, -Nat.cast_min]
  · intro heq
    have hge : ¬ (ret < 0) := by
      rw [heq]
      exact Int.not_lt.mpr (Int.natCast_nonneg _)
    have htn : ret.toNat = min n MaximumFramePlaintextSize := by
      rw [heq]
      exact Int.toNat_natCast _
    simp [encode, h1, h2, hn, hw, hge, heq, htn, encoded_bytes, -Nat.cast_min]

/-- C4 witness: `c4_encode_clamps_and_requires_full_write` at
`fullWriteEngine` with a 5-byte plaintext (clamped span `min 5 16384 =
5`, 34 pending output bytes after the write) and, for the failure arm,
at `shortWriteEngine`, which accepts only 4 of the 5 requested bytes. -/
theorem c4_witness :
    verify_buf true 5 = true ∧ verify_buf true 100 = true ∧ (5 : Nat) ≠ 0 ∧
    fullWriteEngine.ssl_write ⟨true, 0, 0⟩ (min 5 MaximumFramePlaintextSize) =
      (⟨true, 0, 34⟩, ((min 5 MaximumFramePlaintextSize : Nat) : Int)) ∧
    encode fullWriteEngine true true 5 true 100 =
      some ⟨min 5 MaximumFramePlaintextSize, (⟨true, 0, 34⟩ : SslState).output_pending, false⟩ ∧
    encode shortWriteEngine true true 5 true 100 = some ⟨0, 0, true⟩ :=
  ⟨by decide, by decide, by decide, by decide,
    (c4_encode_clamps_and_requires_full_write fullWriteEngine true true 5 100
      ⟨true, 0, 34⟩ ((min 5 MaximumFramePlaintextSize : Nat) : Int)
      (by decide) (by decide) (by decide) (by decide)).2 rfl,
    (c4_encode_clamps_and_requires_full_write shortWriteEngine true true 5 100
      ⟨true, 0, 5⟩ (((min 5 MaximumFramePlaintextSize : Nat) : Int) - 1)
      (by decide) (by decide) (by decide) (by decide)).1 (by decide)⟩

/-- C5 (confirmed): with the handshake complete and an engine whose read
respects the non-increasing input-queue invariant: a positive `SSL_read`
return gives outcome `OK` with `bytes_produced` equal to that length; a
non-positive return with `SSL_ERROR_WANT_READ` gives outcome
`NeedsMorePeerData` with `bytes_produced = 0` while `bytes_consumed` is
the input-queue delta, which may be nonzero; any other error gives
outcome `Failed`. -/
theorem c5_decode_outcomes
    (e : Engine) (cn pn : Bool) (n m : Nat) (s2 : SslState) (ret : Int) (err : Nat)
    (h1 : verify_buf cn n = true) (h2 : verify_buf pn m = true)
    (hr : e.ssl_read ⟨true, n, 0⟩ m = (s2, ret, err))
    (hmono : s2.input_pending ≤ n) :
    (0 < ret →
      decode e true cn n pn m =
        some ⟨n - s2.input_pending, ret.toNat, DecodeState.OK⟩) ∧
    (ret ≤ 0 → err = SSL_ERROR_WANT_READ →
      decode e true cn n pn m =
        some ⟨n - s2.input_pending, 0, DecodeState.NeedsMorePeerData⟩) ∧
    (ret ≤ 0 → err ≠ SSL_ERROR_WANT_READ →
      decode e true cn n pn m =
        some ⟨n - s2.input_pending, 0, DecodeState.Failed⟩) := by
  have hnl : ¬ (n < s2.input_pending) := Nat.not_lt.mpr hmono
  refine ⟨fun hpos => ?_, fun hnp hwr => ?_, fun hnp hor => ?_⟩
  · simp [decode, h1, h2, drain_and_produce_plaintext_from_ssl, hr, hpos, hnl,
      decoded_frames_with_plaintext_bytes, decoded_bytes]
  · simp [decode, h1, h2, drain_and_produce_plaintext_from_ssl, hr,
      Int.not_lt.mpr hnp, hwr, hnl, decode_needs_more_peer_data, decoded_bytes]
  · simp [decode, h1, h2, drain_and_produce_plaintext_from_ssl, hr,
      Int.not_lt.mpr hnp, hor, hnl, decode_failed, decoded_bytes]

/-- An engine whose `SSL_read` drains the whole 7-byte input queue,
produces 3 plaintext bytes, and succeeds. -/
def okReadEngine : Engine where
  do_handshake := fun s => (s, SSL_ERROR_WANT_READ)
  ssl_write := fun s _ => (s, -1)
  ssl_read := fun _ _ => (⟨true, 0, 0⟩, 3, SSL_ERROR_NONE)

/-- An engine whose `SSL_read` buffers 4 bytes of a partial record from
the input queue (7 pending becomes 3) and then wants more data. -/
def partialReadEngine : Engine where
  do_handshake := fun s => (s, SSL_ERROR_WANT_READ)
  ssl_write := fun s _ => (s, -1)
  ssl_read := fun s _ => (⟨true, s.input_pending - 4, 0⟩, -1, SSL_ERROR_WANT_READ)

/-- C5 witness: `c5_decode_outcomes` on a 7-byte ciphertext input: at
`okReadEngine` (3 plaintext bytes decoded, outcome `OK`) and at
`partialReadEngine` (outcome `NeedsMorePeerData` with `bytes_produced =
0` and a nonzero `bytes_consumed = 4`). -/
theorem c5_witness :
    verify_buf true 7 = true ∧ verify_buf true 100 = true ∧
    okReadEngine.ssl_read ⟨true, 7, 0⟩ 100 = (⟨true, 0, 0⟩, 3, SSL_ERROR_NONE) ∧
    decode okReadEngine true true 7 true 100 =
      some ⟨7 - (⟨true, 0, 0⟩ : SslState).input_pending, (3 : Int).toNat, DecodeState.OK⟩ ∧
    partialReadEngine.ssl_read ⟨true, 7, 0⟩ 100 = (⟨true, 3, 0⟩, -1, SSL_ERROR_WANT_READ) ∧
    decode partialReadEngine true true 7 true 100 =
      some ⟨7 - (⟨true, 3, 0⟩ : SslState).input_pending, 0, DecodeState.NeedsMorePeerData⟩ :=
  ⟨by decide, by decide, rfl,
    (c5_decode_outcomes okReadEngine true true 7 100 ⟨true, 0, 0⟩ 3 SSL_ERROR_NONE
      (by decide) (by decide) rfl (by decide)).1 (by decide),
    rfl,
    (c5_decode_outcomes partialReadEngine true true 7 100 ⟨true, 3, 0⟩ (-1)
      SSL_ERROR_WANT_READ (by decide) (by decide) rfl (by decide)).2.1
      (by decide) rfl⟩

/-- C6 (confirmed): when the engine's handshake advance reports
`SSL_ERROR_NONE` (no more peer input needed) while `SSL_is_init_finished`
is still false, `handshake()` returns the fatal
`{0, 0, Failed}` result — the protocol-invariant violation is treated as
a failure, not retried. -/
theorem c6_incomplete_handshake_without_want_read_fails
    (e : Engine) (bn cn : Bool) (n m : Nat) (s2 : SslState)
    (h1 : verify_buf bn n = true) (h2 : verify_buf cn m = true)
    (hhs : e.do_handshake ⟨false, n, 0⟩ = (s2, SSL_ERROR_NONE))
    (hnf : s2.init_finished = false)
    (hmono : s2.input_pending ≤ n) :
    handshake e false bn n cn m = some ⟨0, 0, HandshakeState.Failed⟩ := by
  have hnl : ¬ (n < s2.input_pending) := Nat.not_lt.mpr hmono
  have hcons : do_handshake_and_consume_peer_input_bytes e ⟨false, n, 0⟩ =
      some (s2, handshake_failed) := by
    simp [do_handshake_and_consume_peer_input_bytes, hhs, hnl, hnf,
      SSL_ERROR_WANT_READ, SSL_ERROR_NONE]
  simp [handshake, h1, h2, hcons, handshake_failed, HandshakeResult.failed]

/-- An engine whose handshake advance consumes 2 of the peer bytes and
reports `SSL_ERROR_NONE` while leaving the handshake unfinished — the
protocol-invariant violation of C6. -/
def noneUnfinishedEngine : Engine where
  do_handshake := fun s => (⟨false, s.input_pending - 2, 0⟩, SSL_ERROR_NONE)
  ssl_write := fun s _ => (s, -1)
  ssl_read := fun s _ => (s, -1, SSL_ERROR_WANT_READ)

/-- C6 witness: `c6_incomplete_handshake_without_want_read_fails` at
`noneUnfinishedEngine` with 10 peer-input bytes. -/
theorem c6_witness :
    verify_buf true 10 = true ∧ verify_buf true 100 = true ∧
    noneUnfinishedEngine.do_handshake ⟨false, 10, 0⟩ = (⟨false, 8, 0⟩, SSL_ERROR_NONE) ∧
    (⟨false, 8, 0⟩ : SslState).init_finished = false ∧
    (⟨false, 8, 0⟩ : SslState).input_pending ≤ 10 ∧
    handshake noneUnfinishedEngine false true 10 true 100 =
      some ⟨0, 0, HandshakeState.Failed⟩ :=
  ⟨by decide, by decide, rfl, rfl, by decide,
    c6_incomplete_handshake_without_want_read_fails noneUnfinishedEngine true true 10 100
      ⟨false, 8, 0⟩ (by decide) (by decide) rfl rfl (by decide)⟩

/-- Helper: whatever the engine does, a non-aborting
`do_handshake_and_consume_peer_input_bytes` reports a consumed count
bounded by the pending input size it started from, and never any
produced bytes. -/
theorem consume_res_spec (e : Engine) (s : SslState) (p : SslState × HandshakeResult)
    (h : do_handshake_and_consume_peer_input_bytes e s = some p) :
    p.2.bytes_consumed ≤ s.input_pending ∧ p.2.bytes_produced = 0 := by
  simp only [do_handshake_and_consume_peer_input_bytes] at h
  split at h
  · exact absurd h (by simp)
  · split at h
    · cases h
      exact ⟨Nat.sub_le _ _, rfl⟩
    · split at h
      · split at h
        · cases h
          exact ⟨Nat.zero_le _, rfl⟩
        · cases h
          exact ⟨Nat.sub_le _ _, rfl⟩
      · cases h
        exact ⟨Nat.zero_le _, rfl⟩

/-- An engine whose handshake advance consumes 3 peer-input bytes,
queues 7 output bytes, and wants more peer data. -/
def c7Engine : Engine where
  do_handshake := fun s => (⟨false, s.input_pending - 3, 7⟩, SSL_ERROR_WANT_READ)
  ssl_write := fun s _ => (s, -1)
  ssl_read := fun s _ => (s, -1, SSL_ERROR_WANT_READ)

/-- An engine whose `SSL_read` drains the whole input queue, then fails
fatally (e.g. a MAC failure after buffering the bytes). -/
def c9Engine : Engine where
  do_handshake := fun s => (s, SSL_ERROR_WANT_READ)
  ssl_write := fun s _ => (s, -1)
  ssl_read := fun _ _ => (⟨true, 0, 0⟩, -1, SSL_ERROR_SSL)

/-- C7 (confirmed): for every engine behaviour and every `handshake()`
or `decode()` call that returns a result, `bytes_consumed` is bounded by
the declared length of the supplied input region; and whenever the
engine invocation would leave the input queue with MORE pending bytes
than before (violating the non-increasing invariant), the call aborts on
its `LOG_ASSERT` (modelled as `none`) instead of returning a result. -/
theorem c7_consumed_bounded
    (e : Engine) (inf bn cn : Bool) (n m : Nat) (r : HandshakeResult) (d : DecodeResult) :
    (handshake e inf bn n cn m = some r → r.bytes_consumed ≤ n) ∧
    (decode e inf bn n cn m = some d → d.bytes_consumed ≤ n) ∧
    (∀ s2 code, e.do_handshake ⟨false, n, 0⟩ = (s2, code) → n < s2.input_pending →
      handshake e false bn n cn m = none) ∧
    (∀ s2 ret err, e.ssl_read ⟨true, n, 0⟩ m = (s2, ret, err) → n < s2.input_pending →
      decode e true bn n cn m = none) := by
  refine ⟨?_, ?_, ?_, ?_⟩
  · intro hr
    unfold handshake at hr
    split at hr
    · exact absurd hr (by simp)
    · split at hr
      · cases hr
        exact Nat.zero_le n
      · rcases hdo : do_handshake_and_consume_peer_input_bytes e ⟨false, n, 0⟩ with _ | ⟨s2, cr⟩
        · rw [hdo] at hr
          exact absurd hr (by simp)
        · have hb := consume_res_spec e ⟨false, n, 0⟩ (s2, cr) hdo
          rw [hdo] at hr
          simp only [] at hr
          split at hr
          · exact absurd hr (by simp)
          · split at hr
            · cases hr
              exact hb.1
            · cases hr
              exact hb.1
  · intro hd
    unfold decode at hd
    split at hd
    · exact absurd hd (by simp)
    · split at hd
      · cases hd
        exact Nat.zero_le n
      · simp only [drain_and_produce_plaintext_from_ssl] at hd
        rcases hrd : e.ssl_read ⟨true, n, 0⟩ m with ⟨s2, ret, err⟩
        rw [hrd] at hd
        simp only [] at hd
        split at hd <;> [skip; split at hd] <;>
          · split at hd
            · exact absurd hd (by simp)
            · cases hd
              exact Nat.sub_le _ _
  · intro s2 code hdo hincr
    have hcons : do_handshake_and_consume_peer_input_bytes e ⟨false, n, 0⟩ = none := by
      simp [do_handshake_and_consume_peer_input_bytes, hdo, hincr]
    by_cases h1 : verify_buf bn n = true
    · by_cases h2 : verify_buf cn m = true
      · simp [handshake, h1, h2, hcons]
      · simp [handshake, Bool.eq_false_iff.mpr h2]
    · simp [handshake, Bool.eq_false_iff.mpr h1]
  · intro s2 ret err hrd hincr
    by_cases h1 : verify_buf bn n = true
    · by_cases h2 : verify_buf cn m = true
      · by_cases h0 : 0 < ret
        · simp [decode, h1, h2, drain_and_produce_plaintext_from_ssl, hrd, h0, hincr]
        · by_cases herr : err = SSL_ERROR_WANT_READ <;>
            simp [decode, h1, h2, drain_and_produce_plaintext_from_ssl, hrd, h0, herr, hincr]
      · simp [decode, Bool.eq_false_iff.mpr h2]
    · simp [decode, Bool.eq_false_iff.mpr h1]

/-- C7 witness: a `handshake()` on 5 peer bytes with `c7Engine` consumes
3 ≤ 5 of them, and a `decode()` of 5 ciphertext bytes with `c9Engine`
reports 5 ≤ 5 consumed, both bounds obtained from
`c7_consumed_bounded`. -/
theorem c7_witness :
    handshake c7Engine false true 5 true 100 =
      some ⟨3, 7, HandshakeState.NeedsMorePeerData⟩ ∧
    (⟨3, 7, HandshakeState.NeedsMorePeerData⟩ : HandshakeResult).bytes_consumed ≤ 5 ∧
    decode c9Engine true true 5 true 100 = some ⟨5, 0, DecodeState.Failed⟩ ∧
    (⟨5, 0, DecodeState.Failed⟩ : DecodeResult).bytes_consumed ≤ 5 :=
  ⟨by decide,
    (c7_consumed_bounded c7Engine false true true 5 100
      ⟨3, 7, HandshakeState.NeedsMorePeerData⟩ decode_failed).1 (by decide),
    by decide,
    (c7_consumed_bounded c9Engine true true true 5 100 handshake_failed
      ⟨5, 0, DecodeState.Failed⟩).2.1 (by decide)⟩

/-- The buffer-validity predicate as the spec words it: the length must
fit in a 32-bit signed magnitude (i.e. be representable as a
non-negative `int32`, `len ≤ INT32_MAX`) and a nonzero length needs a
non-null pointer.  Stated separately from `verify_buf` (which is
translated from the source) so the two can be compared. -/
def spec_buffer_valid (buf_nonnull : Bool) (len : Nat) : Prop :=
  len ≤ INT32_MAX ∧ (len ≠ 0 → buf_nonnull = true)

/-- C8 counterexample: a non-null buffer of length exactly `INT32_MAX =
2^31 - 1` fits in a 32-bit signed magnitude, so the claim says the entry
assertion passes — but `verify_buf` requires `len < INT32_MAX` strictly,
rejects it, and a `handshake()` call with it aborts (`none`). -/
theorem c8_counterexample :
    spec_buffer_valid true INT32_MAX ∧
    verify_buf true INT32_MAX = false ∧
    handshake stallEngine false true INT32_MAX true 0 = none :=
  ⟨⟨Nat.le_refl _, fun _ => rfl⟩, by decide, by decide⟩

/-- C8 (amended): every call's entry assertion uses the single predicate
`verify_buf`, which accepts exactly the buffers whose length is
STRICTLY below `INT32_MAX` (not merely representable in 32 signed bits)
and, when nonzero, whose pointer is non-null; a null pointer with length
zero passes; and whenever either supplied buffer fails the predicate,
`handshake()`, `encode()` and `decode()` all abort (`none`, the
abort-class contract failure) rather than return an error result. -/
theorem c8_buffer_validation
    (b bn cn : Bool) (len n m : Nat) (e : Engine) (inf : Bool) :
    (verify_buf b len = true ↔ (len < INT32_MAX ∧ (len ≠ 0 → b = true))) ∧
    verify_buf false 0 = true ∧
    (¬(verify_buf bn n = true ∧ verify_buf cn m = true) →
      handshake e inf bn n cn m = none ∧
      encode e inf bn n cn m = none ∧
      decode e inf bn n cn m = none) := by
  refine ⟨?_, by decide, fun hv => ?_⟩
  · simp only [verify_buf, Bool.and_eq_true, Bool.or_eq_true, decide_eq_true_eq]
    tauto
  · have hff : (verify_buf bn n && verify_buf cn m) = false := by
      cases hb : verify_buf bn n <;> cases hc : verify_buf cn m <;> simp_all
    exact ⟨by simp [handshake, hff], by simp [encode, hff], by simp [decode, hff]⟩

/-- C8 witness: a null pointer with nonzero length 1 fails validation,
and all three operations abort on it, via `c8_buffer_validation`. -/
theorem c8_witness :
    ¬(verify_buf false 1 = true ∧ verify_buf true 0 = true) ∧
    handshake stallEngine false false 1 true 0 = none ∧
    encode stallEngine false false 1 true 0 = none ∧
    decode stallEngine false false 1 true 0 = none := by
  have h := (c8_buffer_validation false false true 1 1 0 stallEngine false).2.2 (by decide)
  exact ⟨by decide, h.1, h.2.1, h.2.2⟩

/-- C9 (confirmed): there is a `decode()` call — 5 ciphertext bytes fed
to an engine (`c9Engine`) whose read drains all of them and then fails —
whose `Failed` result carries `bytes_consumed = 5 ≠ 0`: decode computes
the buffered-input delta even on the `Failed` outcome, in contrast with
the `{0, 0, Failed}` returned for the before-handshake precondition
violation on the same buffers. -/
theorem c9_failed_decode_reports_consumed :
    decode c9Engine true true 5 true 100 = some ⟨5, 0, DecodeState.Failed⟩ ∧
    (5 : Nat) ≠ 0 ∧
    decode c9Engine false true 5 true 100 = some ⟨0, 0, DecodeState.Failed⟩ :=
  ⟨by decide, by decide, by decide⟩

/-- An engine whose handshake advance consumes nothing and reports the
fatal `SSL_ERROR_SSL`. -/
def fatalHandshakeEngine : Engine where
  do_handshake := fun s => (⟨false, s.input_pending, 0⟩, SSL_ERROR_SSL)
  ssl_write := fun s _ => (s, -1)
  ssl_read := fun s _ => (s, -1, SSL_ERROR_SSL)

/-- C10 (confirmed): whenever the handshake-advance step fails — the
engine reports any code other than `SSL_ERROR_WANT_READ`, and if that
code is `SSL_ERROR_NONE` the handshake is not internally finished —
`handshake()` returns exactly `{bytes_consumed = 0, bytes_produced = 0,
Failed}` (the `handshake_failed()` value): the consumed-byte delta
computed before the failure and any pending output bytes are
discarded. -/
theorem c10_failed_handshake_zero_counts
    (e : Engine) (bn cn : Bool) (n m : Nat) (s2 : SslState) (code : Nat)
    (h1 : verify_buf bn n = true) (h2 : verify_buf cn m = true)
    (hhs : e.do_handshake ⟨false, n, 0⟩ = (s2, code))
    (hmono : s2.input_pending ≤ n)
    (hnw : code ≠ SSL_ERROR_WANT_READ)
    (hnc : code = SSL_ERROR_NONE → s2.init_finished = false) :
    handshake e false bn n cn m = some ⟨0, 0, HandshakeState.Failed⟩ := by
  have hnl : ¬ (n < s2.input_pending) := Nat.not_lt.mpr hmono
  have hcons : do_handshake_and_consume_peer_input_bytes e ⟨false, n, 0⟩ =
      some (s2, handshake_failed) := by
    by_cases hc : code = SSL_ERROR_NONE
    · simp [do_handshake_and_consume_peer_input_bytes, hhs, hnl, hnw, hc, hnc hc,
        SSL_ERROR_NONE, SSL_ERROR_WANT_READ]
    · simp [do_handshake_and_consume_peer_input_bytes, hhs, hnl, hnw, hc]
  simp [handshake, h1, h2, hcons, handshake_failed, HandshakeResult.failed]

/-- C10 witness: `c10_failed_handshake_zero_counts` at
`fatalHandshakeEngine` with 4 peer bytes and a 50-byte output buffer. -/
theorem c10_witness :
    verify_buf true 4 = true ∧ verify_buf true 50 = true ∧
    fatalHandshakeEngine.do_handshake ⟨false, 4, 0⟩ = (⟨false, 4, 0⟩, SSL_ERROR_SSL) ∧
    (⟨false, 4, 0⟩ : SslState).input_pending ≤ 4 ∧
    SSL_ERROR_SSL ≠ SSL_ERROR_WANT_READ ∧
    handshake fatalHandshakeEngine false true 4 true 50 =
      some ⟨0, 0, HandshakeState.Failed⟩ :=
  ⟨by decide, by decide, rfl, by decide, by decide,
    c10_failed_handshake_zero_counts fatalHandshakeEngine true true 4 50 ⟨false, 4, 0⟩
      SSL_ERROR_SSL (by decide) (by decide) rfl (by decide) (by decide)
      (fun h => absurd h (by decide))⟩

end VespaTls
